import Mathlib

/-!
Verification of the travel-matrix core of the Pharmacy_Refusals repository.

The numeric model: NumPy double values are embedded as `EF`, an extended
value that is either a finite rational, NaN, or a signed infinity.  Rational
arithmetic stands in for real arithmetic; NaN and infinity propagation follow
the IEEE rules NumPy uses (`0 * NaN = NaN`, `0 * ∞ = NaN`, `0 / 0 = NaN`,
`x / 0 = ±∞` for `x ≠ 0`), since the code under verification manipulates NaN
explicitly (`np.isnan`, `np.nan` sentinels, `np.errstate`).

Matrices are total functions `Fin n → Fin n → EF`; population vectors are
`Fin n → ℚ` (populations are loaded with `fillna(0)`, hence never NaN).
-/

namespace PharmacyRefusals

/-- Extended IEEE-style value: a finite rational, NaN, or a signed infinity. -/
inductive EF where
  | fin (q : ℚ)
  | nan
  | pinf
  | ninf
deriving DecidableEq

namespace EF

/-- IEEE addition on extended values. -/
def add : EF → EF → EF
  | nan, _ => nan
  | fin _, nan => nan
  | pinf, nan => nan
  | ninf, nan => nan
  | fin a, fin b => fin (a + b)
  | fin _, pinf => pinf
  | fin _, ninf => ninf
  | pinf, fin _ => pinf
  | pinf, pinf => pinf
  | pinf, ninf => nan
  | ninf, fin _ => ninf
  | ninf, pinf => nan
  | ninf, ninf => ninf

/-- IEEE multiplication on extended values (`0 * ∞ = NaN`, `0 * NaN = NaN`). -/
def mul : EF → EF → EF
  | nan, _ => nan
  | fin _, nan => nan
  | pinf, nan => nan
  | ninf, nan => nan
  | fin a, fin b => fin (a * b)
  | fin a, pinf => if a = 0 then nan else if 0 < a then pinf else ninf
  | fin a, ninf => if a = 0 then nan else if 0 < a then ninf else pinf
  | pinf, fin b => if b = 0 then nan else if 0 < b then pinf else ninf
  | ninf, fin b => if b = 0 then nan else if 0 < b then ninf else pinf
  | pinf, pinf => pinf
  | pinf, ninf => ninf
  | ninf, pinf => ninf
  | ninf, ninf => pinf

/-- IEEE division on extended values (`0 / 0 = NaN`, `x / 0 = ±∞` for `x ≠ 0`,
`x / ±∞ = 0` for finite `x`, `∞ / ∞ = NaN`).  Signed zero is not modelled; no
claim observes it. -/
def div : EF → EF → EF
  | nan, _ => nan
  | fin _, nan => nan
  | pinf, nan => nan
  | ninf, nan => nan
  | fin a, fin b =>
      if b = 0 then (if a = 0 then nan else if 0 < a then pinf else ninf)
      else fin (a / b)
  | fin _, pinf => fin 0
  | fin _, ninf => fin 0
  | pinf, fin b => if 0 ≤ b then pinf else ninf
  | ninf, fin b => if 0 ≤ b then ninf else pinf
  | pinf, pinf => nan
  | pinf, ninf => nan
  | ninf, pinf => nan
  | ninf, ninf => nan

/-- The `np.isnan` predicate. -/
def isnan : EF → Bool
  | nan => true
  | _ => false

theorem add_commutes (x y : EF) : add x y = add y x := by
  cases x <;> cases y <;> simp [add, Rat.add_comm]

theorem mul_commutes (x y : EF) : mul x y = mul y x := by
  cases x <;> cases y <;> simp [mul, Rat.mul_comm]

end EF

/-- Shallow embedding of `compute_dtilde_matrix` from
`Modular_Code/compute_t_matrices_1.py`: the broadcast expression
`(pop_i * travel_matrix + pop_j * travel_matrix.T) / (pop_i + pop_j)`
computed per cell under `np.errstate`, followed by
`dtilde[np.isnan(dtilde)] = 0`. -/
def compute_dtilde_matrix {n : ℕ} (travel_matrix : Fin n → Fin n → EF)
    (populations : Fin n → ℚ) : Fin n → Fin n → EF := fun i j =>
  let v := EF.div
    (EF.add (EF.mul (EF.fin (populations i)) (travel_matrix i j))
            (EF.mul (EF.fin (populations j)) (travel_matrix j i)))
    (EF.add (EF.fin (populations i)) (EF.fin (populations j)))
  if v.isnan then EF.fin 0 else v

/-- Shallow embedding of `compute_d_matrix` from
`Modular_Code/compute_t_matrices_1.py`: the per-cell four-way branch on the
two population entries.  The Python loop assigns every cell of an `np.zeros`
array exactly once, so the net effect is this per-cell function. -/
def compute_d_matrix {n : ℕ} (dtilde_matrix : Fin n → Fin n → EF)
    (populations : Fin n → ℚ) : Fin n → Fin n → EF := fun i j =>
  let popi := populations i
  let popj := populations j
  if popi = 0 ∧ popj = 0 then EF.fin 0
  else if popi = 0 then dtilde_matrix j i
  else if popj = 0 then dtilde_matrix i j
  else EF.div
    (EF.add (EF.mul (EF.fin popi) (dtilde_matrix i j))
            (EF.mul (EF.fin popj) (dtilde_matrix j i)))
    (EF.add (EF.fin popi) (EF.fin popj))

/-- Embeds an all-finite rational matrix into the extended-value matrices. -/
def finMat {n : ℕ} (T : Fin n → Fin n → ℚ) : Fin n → Fin n → EF :=
  fun i j => EF.fin (T i j)

theorem dtilde_eq_of_denom_ne_zero {n : ℕ} (T : Fin n → Fin n → ℚ) (p : Fin n → ℚ)
    (i j : Fin n) (h : p i + p j ≠ 0) :
    compute_dtilde_matrix (finMat T) p i j =
      EF.fin ((p i * T i j + p j * T j i) / (p i + p j)) := by
  simp [compute_dtilde_matrix, finMat, EF.mul, EF.add, EF.div, EF.isnan, h]

theorem dtilde_eq_zero_of_zero_pops {n : ℕ} (T : Fin n → Fin n → EF) (p : Fin n → ℚ)
    (i j : Fin n) (hi : p i = 0) (hj : p j = 0) :
    compute_dtilde_matrix T p i j = EF.fin 0 := by
  cases hTij : T i j <;> cases hTji : T j i <;>
    simp [compute_dtilde_matrix, hi, hj, hTij, hTji, EF.mul, EF.add, EF.div, EF.isnan]

theorem d_matrix_symm_of_any {n : ℕ} (dt : Fin n → Fin n → EF) (p : Fin n → ℚ)
    (i j : Fin n) :
    compute_d_matrix dt p i j = compute_d_matrix dt p j i := by
  by_cases hi : p i = 0 <;> by_cases hj : p j = 0 <;>
    simp [compute_d_matrix, hi, hj]
  rw [EF.add_commutes (EF.mul (EF.fin (p j)) (dt j i)),
      EF.add_commutes (EF.fin (p j))]

/-- C1: for every n×n finite travel matrix `T` and population vector `p`,
`compute_dtilde_matrix` returns `(p i * T i j + p j * T j i) / (p i + p j)`
whenever `p i + p j > 0`, and `0` whenever `p i = 0` and `p j = 0` (the `0/0`
NaN is replaced by `0`, not propagated). -/
theorem dtilde_formula {n : ℕ} (T : Fin n → Fin n → ℚ) (p : Fin n → ℚ) (i j : Fin n) :
    (0 < p i + p j →
      compute_dtilde_matrix (finMat T) p i j =
        EF.fin ((p i * T i j + p j * T j i) / (p i + p j)))
    ∧ (p i = 0 → p j = 0 → compute_dtilde_matrix (finMat T) p i j = EF.fin 0) := by
  constructor
  · intro h
    exact dtilde_eq_of_denom_ne_zero T p i j h.ne'
  · intro hi hj
    exact dtilde_eq_zero_of_zero_pops (finMat T) p i j hi hj

/-- C2: for every n×n finite matrix `d̃` and non-negative population vector
`p`, `compute_d_matrix` is determined by exactly the four population cases,
reading only `d̃` and `p`. -/
theorem d_matrix_formula {n : ℕ} (Q : Fin n → Fin n → ℚ) (p : Fin n → ℚ)
    (hp : ∀ k, 0 ≤ p k) (i j : Fin n) :
    (p i = 0 ∧ p j = 0 → compute_d_matrix (finMat Q) p i j = EF.fin 0)
    ∧ (p i = 0 → p j ≠ 0 → compute_d_matrix (finMat Q) p i j = EF.fin (Q j i))
    ∧ (p j = 0 → p i ≠ 0 → compute_d_matrix (finMat Q) p i j = EF.fin (Q i j))
    ∧ (p i ≠ 0 → p j ≠ 0 →
        compute_d_matrix (finMat Q) p i j =
          EF.fin ((p i * Q i j + p j * Q j i) / (p i + p j))) := by
  refine ⟨?_, ?_, ?_, ?_⟩
  · rintro ⟨hi, hj⟩
    simp [compute_d_matrix, hi, hj]
  · intro hi hj
    simp [compute_d_matrix, hi, hj, finMat]
  · intro hj hi
    simp [compute_d_matrix, hi, hj, finMat]
  · intro hi hj
    have h1 : 0 < p i := lt_of_le_of_ne (hp i) (Ne.symm hi)
    have h2 : 0 < p j := lt_of_le_of_ne (hp j) (Ne.symm hj)
    have hs : p i + p j ≠ 0 := by positivity
    simp [compute_d_matrix, hi, hj, finMat, EF.mul, EF.add, EF.div, hs]

/-- C5: if `p k = 0` then the final matrix `d` has `d k j = d̃ j k` for every
`j ≠ k`, and `d k k = 0`. -/
theorem zero_population_invariant {n : ℕ} (T : Fin n → Fin n → EF) (p : Fin n → ℚ)
    (k : Fin n) (hk : p k = 0) :
    (∀ j, j ≠ k →
      compute_d_matrix (compute_dtilde_matrix T p) p k j = compute_dtilde_matrix T p j k)
    ∧ compute_d_matrix (compute_dtilde_matrix T p) p k k = EF.fin 0 := by
  constructor
  · intro j hjk
    by_cases hj : p j = 0
    · rw [dtilde_eq_zero_of_zero_pops T p j k hj hk]
      simp [compute_d_matrix, hk, hj]
    · simp [compute_d_matrix, hk, hj]
  · simp [compute_d_matrix, hk]

/-- C6: for every travel matrix `T` (finite or not) and non-negative
population vector `p`, the final matrix
`d = compute_d_matrix (compute_dtilde_matrix T p) p` is symmetric. -/
theorem d_matrix_symmetric {n : ℕ} (T : Fin n → Fin n → EF) (p : Fin n → ℚ)
    (_hp : ∀ k, 0 ≤ p k) (i j : Fin n) :
    compute_d_matrix (compute_dtilde_matrix T p) p i j =
      compute_d_matrix (compute_dtilde_matrix T p) p j i :=
  d_matrix_symm_of_any (compute_dtilde_matrix T p) p i j

/-- C10: with non-negative populations, whenever `p i + p j > 0` the
first-pass value `d̃ i j` is a convex combination of the two directed costs:
it lies between their min and their max, and equals their arithmetic mean
when `p i = p j`. -/
theorem dtilde_between {n : ℕ} (T : Fin n → Fin n → ℚ) (p : Fin n → ℚ)
    (hp : ∀ k, 0 ≤ p k) (i j : Fin n) (hpos : 0 < p i + p j) :
    ∃ q : ℚ, compute_dtilde_matrix (finMat T) p i j = EF.fin q
      ∧ min (T i j) (T j i) ≤ q ∧ q ≤ max (T i j) (T j i)
      ∧ (p i = p j → q = (T i j + T j i) / 2) := by
  refine ⟨(p i * T i j + p j * T j i) / (p i + p j),
    dtilde_eq_of_denom_ne_zero T p i j hpos.ne', ?_, ?_, ?_⟩
  · rw [le_div_iff₀ hpos]
    rcases le_total (T i j) (T j i) with hle | hle
    · rw [min_eq_left hle]
      nlinarith [hp i, hp j]
    · rw [min_eq_right hle]
      nlinarith [hp i, hp j]
  · rw [div_le_iff₀ hpos]
    rcases le_total (T i j) (T j i) with hle | hle
    · rw [max_eq_right hle]
      nlinarith [hp i, hp j]
    · rw [max_eq_left hle]
      nlinarith [hp i, hp j]
  · intro hij
    have hj : 0 < p j := by
      rw [hij] at hpos
      linarith
    rw [hij, div_eq_div_iff (by linarith) (by norm_num)]
    ring

/-!
Strategy models for the shortest-path matrix computer.  The road network and
NetworkX are external collaborators; a Dijkstra run is abstracted by an
oracle `spl : ℕ → ℕ → Option ℚ` giving the shortest-path cost between two
graph nodes, `none` when no path exists.  `nx.shortest_path_length` raises
`NetworkXNoPath` on a `none` (modelled by `Option` propagation out of the
batch), while `nx.single_source_dijkstra_path_length` returns a dict whose
`.get` on a missing key yields the supplied default.
-/

/-- Cell pairs `[(i, j) for i in range(n) for j in range(n) if i != j]` from
`Modular_Code/raw_walk_and_drive_times1.py`. -/
def pairs_drive (n : ℕ) : List (Fin n × Fin n) :=
  ((List.finRange n).product (List.finRange n)).filter (fun pr => decide (pr.1 ≠ pr.2))

/-- Cell pairs `[(i, j) for i in range(n) for j in range(i+1, n)]` from
`Modular_Code/raw_walk_and_drive_times1.py`. -/
def pairs_walk (n : ℕ) : List (Fin n × Fin n) :=
  ((List.finRange n).product (List.finRange n)).filter (fun pr => decide (pr.1 < pr.2))

/-- The single assignment `D[i, j] = v` on a matrix. -/
def writeCell {n : ℕ} (D : Fin n → Fin n → EF) (i j : Fin n) (v : EF) :
    Fin n → Fin n → EF :=
  fun a b => if a = i ∧ b = j then v else D a b

/-- The assignment pair `W[i, j] = v; W[j, i] = v` on a matrix. -/
def writePair {n : ℕ} (W : Fin n → Fin n → EF) (i j : Fin n) (v : EF) :
    Fin n → Fin n → EF :=
  fun a b => if (a = i ∧ b = j) ∨ (a = j ∧ b = i) then v else W a b

/-- Strategy A drive segment of `compute_matrices` in
`Modular_Code/raw_walk_and_drive_times1.py`: one `nx.shortest_path_length`
query per ordered pair, results assembled into an `np.zeros` array.  An
unreachable pair raises `NetworkXNoPath` out of `pool.map` before any matrix
is assembled, so the whole computation is an `Option` (`none` = batch
aborted by the exception). -/
def compute_matrices_drive {n : ℕ} (spl : ℕ → ℕ → Option ℚ)
    (nodes_drive : Fin n → ℕ) : Option (Fin n → Fin n → EF) :=
  match (pairs_drive n).mapM
      (fun pr => spl (nodes_drive pr.1) (nodes_drive pr.2)) with
  | none => none
  | some drive_results =>
      some (((pairs_drive n).zip drive_results).foldl
        (fun D pr => writeCell D pr.1.1 pr.1.2 (EF.fin pr.2))
        (fun _ _ => EF.fin 0))

/-- Strategy A walk segment of `compute_matrices`: one query per unordered
pair `i < j`, the path length divided by the 1.42 m/s pedestrian speed and
written into both cells of an `np.zeros` array; an unreachable pair aborts
exactly as in the drive segment. -/
def compute_matrices_walk {n : ℕ} (spl : ℕ → ℕ → Option ℚ)
    (nodes_walk : Fin n → ℕ) : Option (Fin n → Fin n → EF) :=
  match (pairs_walk n).mapM
      (fun pr => spl (nodes_walk pr.1) (nodes_walk pr.2)) with
  | none => none
  | some lengths =>
      some (((pairs_walk n).zip lengths).foldl
        (fun W pr => writePair W pr.1.1 pr.1.2 (EF.fin (pr.2 / 1.42)))
        (fun _ _ => EF.fin 0))

/-- Strategy B `compute_full_drive_matrix` from
`Modular_Code/raw_walk_and_drive_times_test_2.py`: per-source Dijkstra on a
NaN-filled array; every cell `(i, j)` is assigned exactly once with
`lengths.get(tgt, np.nan)`, so the array's net content is this per-cell
function. -/
def compute_full_drive_matrix {n : ℕ} (spl : ℕ → ℕ → Option ℚ)
    (nodes : Fin n → ℕ) : Fin n → Fin n → EF := fun i j =>
  match spl (nodes i) (nodes j) with
  | some len => EF.fin len
  | none => EF.nan

/-- Strategy B `compute_full_walk_matrix`: per-source Dijkstra over a
NaN-filled array; when the target is reachable the converted time is written
into both `(i, j)` and `(j, i)`, later sources overwriting earlier ones, so
the loop order is modelled faithfully by nested folds. -/
def compute_full_walk_matrix {n : ℕ} (spl : ℕ → ℕ → Option ℚ)
    (nodes : Fin n → ℕ) (speed_mps : ℚ) : Fin n → Fin n → EF :=
  (List.finRange n).foldl (fun W i =>
    (List.finRange n).foldl (fun W' j =>
      match spl (nodes i) (nodes j) with
      | some dist_m => writePair W' i j (EF.fin (dist_m / speed_mps))
      | none => W') W)
    (fun _ _ => EF.nan)

/-- Symmetry of a matrix. -/
def IsSymmMat {n : ℕ} (W : Fin n → Fin n → EF) : Prop := ∀ a b, W a b = W b a

theorem writePair_isSymm {n : ℕ} (W : Fin n → Fin n → EF) (i j : Fin n) (v : EF)
    (h : IsSymmMat W) : IsSymmMat (writePair W i j v) := by
  intro a b
  simp only [writePair]
  by_cases hc : (a = i ∧ b = j) ∨ (a = j ∧ b = i)
  · rw [if_pos hc, if_pos (by tauto)]
  · rw [if_neg hc, if_neg (by tauto), h]

theorem foldl_isSymm {n : ℕ} {α : Type}
    (step : (Fin n → Fin n → EF) → α → (Fin n → Fin n → EF))
    (hstep : ∀ W a, IsSymmMat W → IsSymmMat (step W a)) :
    ∀ (l : List α) (W : Fin n → Fin n → EF),
      IsSymmMat W → IsSymmMat (l.foldl step W) := by
  intro l
  induction l with
  | nil => intro W h; exact h
  | cons x xs ih => intro W h; exact ih _ (hstep W x h)

theorem compute_full_walk_matrix_isSymm {n : ℕ} (spl : ℕ → ℕ → Option ℚ)
    (nodes : Fin n → ℕ) (s : ℚ) :
    IsSymmMat (compute_full_walk_matrix spl nodes s) := by
  unfold compute_full_walk_matrix
  apply foldl_isSymm
  · intro W i0 hW
    apply foldl_isSymm
    · intro W' j0 hW'
      dsimp only
      cases spl (nodes i0) (nodes j0) with
      | some d => exact writePair_isSymm _ _ _ _ hW'
      | none => exact hW'
    · exact hW
  · intro a b
    rfl

theorem compute_matrices_walk_isSymm {n : ℕ} (spl : ℕ → ℕ → Option ℚ)
    (nodes : Fin n → ℕ) (W : Fin n → Fin n → EF)
    (h : compute_matrices_walk spl nodes = some W) : IsSymmMat W := by
  unfold compute_matrices_walk at h
  cases hm : (pairs_walk n).mapM (fun pr => spl (nodes pr.1) (nodes pr.2)) with
  | none =>
      rw [hm] at h
      simp at h
  | some lengths =>
      rw [hm] at h
      simp only [Option.some.injEq] at h
      rw [← h]
      apply foldl_isSymm
      · intro W0 pr h0
        exact writePair_isSymm _ _ _ _ h0
      · intro a b
        rfl

/-- C8: every walk matrix produced by either strategy is symmetric: the
per-source Dijkstra variant always, the pairwise-parallel variant whenever
it completes and returns a matrix. -/
theorem walk_matrices_symmetric {n : ℕ} (spl : ℕ → ℕ → Option ℚ)
    (nodes : Fin n → ℕ) (W : Fin n → Fin n → EF) (i j : Fin n) :
    compute_full_walk_matrix spl nodes 1.42 i j =
      compute_full_walk_matrix spl nodes 1.42 j i
    ∧ (compute_matrices_walk spl nodes = some W → W i j = W j i) := by
  constructor
  · exact compute_full_walk_matrix_isSymm spl nodes 1.42 i j
  · intro h
    exact compute_matrices_walk_isSymm spl nodes W h i j

/-!
Persistence-layer model.  `process_files` loads a tract CSV and a travel
matrix and rejects a dimension mismatch before computing anything; the I/O
is external, so the model takes the already-loaded population list, tract
identifiers and matrix, and returns the labeled d̃/d output or the raised
`ValueError` message.  `load_labeled_matrix` likewise labels a loaded matrix
after its dimension check.
-/

/-- Core of `process_files` from `Modular_Code/compute_t_matrices_1.py`:
check `travel_matrix.shape[0] != len(populations)`, then compute d̃ and d
and emit them labeled with the tract IDs. -/
def process_files (m : ℕ) (populations : List ℚ) (ids : List String)
    (travel_matrix : Fin m → Fin m → EF) :
    Except String (List String × (Fin m → Fin m → EF) × (Fin m → Fin m → EF)) :=
  if m ≠ populations.length then
    Except.error "Mismatch: travel matrix size does not match number of population entries."
  else
    let pops : Fin m → ℚ := fun i => populations.getD i.val 0
    let dtilde := compute_dtilde_matrix travel_matrix pops
    let dmat := compute_d_matrix dtilde pops
    Except.ok (ids, dtilde, dmat)

/-- Core of `load_labeled_matrix` from `Modular_Code/compute_t_matrices_1.py`:
check `matrix.shape[0] != len(ids)`, then label rows and columns with the
tract IDs. -/
def load_labeled_matrix (m : ℕ) (matrix : Fin m → Fin m → EF)
    (ids : List String) :
    Except String (List String × (Fin m → Fin m → EF)) :=
  if m ≠ ids.length then
    Except.error "Matrix size and number of IDs do not match."
  else
    Except.ok (ids, matrix)

/-- C9: both loaders reject a dimension mismatch with an error and produce
no labeled matrix. -/
theorem dimension_mismatch_rejected (m : ℕ) (populations : List ℚ)
    (ids ids2 : List String) (T M : Fin m → Fin m → EF)
    (h1 : m ≠ populations.length) (h2 : m ≠ ids2.length) :
    process_files m populations ids T =
      Except.error "Mismatch: travel matrix size does not match number of population entries."
    ∧ load_labeled_matrix m M ids2 =
      Except.error "Matrix size and number of IDs do not match." := by
  constructor
  · simp [process_files, h1]
  · simp [load_labeled_matrix, h2]

/-! Concrete instances used by the remaining claims and by the witnesses. -/

/-- Population vector `[0, 10, 20]` of the spec's concrete scenario. -/
def popC3 : Fin 3 → ℚ
  | 0 => 0
  | 1 => 10
  | 2 => 20

/-- Raw matrix `T = [[0,4,6],[5,0,3],[7,2,0]]` of the spec's concrete
scenario. -/
def rawC3 : Fin 3 → Fin 3 → ℚ
  | 0, 0 => 0
  | 0, 1 => 4
  | 0, 2 => 6
  | 1, 0 => 5
  | 1, 1 => 0
  | 1, 2 => 3
  | 2, 0 => 7
  | 2, 1 => 2
  | 2, 2 => 0

/-- C3 counterexample: at the spec's own scenario the code yields
`d[0,1] = 5`, not the expected `4`. -/
theorem scenario_d01_is_five_not_four :
    compute_d_matrix (compute_dtilde_matrix (finMat rawC3) popC3) popC3 0 1 = EF.fin 5
    ∧ ¬ compute_d_matrix (compute_dtilde_matrix (finMat rawC3) popC3) popC3 0 1
        = EF.fin 4 := by
  constructor
  · norm_num [compute_d_matrix, compute_dtilde_matrix, finMat, popC3, rawC3,
      EF.mul, EF.add, EF.div, EF.isnan]
  · norm_num [compute_d_matrix, compute_dtilde_matrix, finMat, popC3, rawC3,
      EF.mul, EF.add, EF.div, EF.isnan]

/-- C3 amended: `d̃[0,1] = 5`, `d̃[1,2] = 7/3`, and `d[0,1] = d̃[1,0]` (the
zero-population fallback for index 0), whose value is `5`: by the d̃ formula,
`d̃[1,0] = (10·5 + 0·4)/10 = 5`, not `(10·4 + 0·5)/10 = 4`. -/
theorem scenario_values :
    compute_dtilde_matrix (finMat rawC3) popC3 0 1 = EF.fin 5
    ∧ compute_dtilde_matrix (finMat rawC3) popC3 1 2 = EF.fin (7 / 3)
    ∧ compute_d_matrix (compute_dtilde_matrix (finMat rawC3) popC3) popC3 0 1
        = compute_dtilde_matrix (finMat rawC3) popC3 1 0
    ∧ compute_dtilde_matrix (finMat rawC3) popC3 1 0 = EF.fin 5 := by
  refine ⟨?_, ?_, ?_, ?_⟩ <;>
    norm_num [compute_d_matrix, compute_dtilde_matrix, finMat, popC3, rawC3,
      EF.mul, EF.add, EF.div, EF.isnan]

/-- Unit population vector on two tracts. -/
def popOnes : Fin 2 → ℚ := fun _ => 1

/-- A 2×2 travel matrix whose `(0,1)` entry is the unreachable-pair NaN
sentinel, all other entries finite. -/
def travelNaN : Fin 2 → Fin 2 → EF := fun i j =>
  if i = 0 ∧ j = 1 then EF.nan else if i = j then EF.fin 0 else EF.fin 3

/-- C4: at a matrix whose `(0,1)` entry is the NaN sentinel, with both
populations nonzero, `compute_dtilde_matrix` silently coerces the NaN cell
to `0`; the NaN poisons both blend directions (`1·NaN + 1·3 = NaN`), so the
second pass then reports a genuine-looking zero cost `d[0,1] = 0` for the
unreachable pair. -/
theorem nan_sentinel_coerced_to_zero :
    travelNaN 0 1 = EF.nan
    ∧ compute_dtilde_matrix travelNaN popOnes 0 1 = EF.fin 0
    ∧ compute_d_matrix (compute_dtilde_matrix travelNaN popOnes) popOnes 0 1
        = EF.fin 0 := by
  refine ⟨rfl, ?_, ?_⟩ <;>
    norm_num [compute_d_matrix, compute_dtilde_matrix, travelNaN, popOnes,
      EF.mul, EF.add, EF.div, EF.isnan]

/-- Oracle of a disconnected two-node graph: each node reaches only itself. -/
def splDisc : ℕ → ℕ → Option ℚ := fun a b => if a = b then some 0 else none

/-- Oracle of a complete two-node graph with cost 71 between any two nodes. -/
def splTot : ℕ → ℕ → Option ℚ := fun _ _ => some 71

/-- Identity node mapping on two points. -/
def nodesId2 : Fin 2 → ℕ := fun i => i.val

/-- C7: on a two-node graph where node 1 is unreachable from node 0, the
per-source Dijkstra strategy records the NaN sentinel in both matrices, but
the pairwise-parallel strategy aborts the whole batch (the
`NetworkXNoPath` exception from the first unreachable pair) and produces no
matrix at all. -/
theorem unreachable_pair_divergence :
    compute_full_drive_matrix splDisc nodesId2 0 1 = EF.nan
    ∧ compute_full_walk_matrix splDisc nodesId2 1.42 0 1 = EF.nan
    ∧ compute_matrices_drive splDisc nodesId2 = none
    ∧ compute_matrices_walk splDisc nodesId2 = none := by
  refine ⟨rfl, rfl, rfl, rfl⟩

/-- Population vector `[3, 1]` for the witnesses. -/
def popW : Fin 2 → ℚ
  | 0 => 3
  | 1 => 1

/-- Travel matrix `[[0,4],[8,0]]` for the witnesses. -/
def rawW : Fin 2 → Fin 2 → ℚ
  | 0, 0 => 0
  | 0, 1 => 4
  | 1, 0 => 8
  | 1, 1 => 0

/-- Zero population vector on two tracts. -/
def popZ : Fin 2 → ℚ := fun _ => 0

/-- Mixed population vector `[0, 2]`. -/
def popM : Fin 2 → ℚ
  | 0 => 0
  | 1 => 2

theorem dtilde_formula_witness :
    compute_dtilde_matrix (finMat rawW) popW 0 1
      = EF.fin ((popW 0 * rawW 0 1 + popW 1 * rawW 1 0) / (popW 0 + popW 1))
    ∧ compute_dtilde_matrix (finMat rawW) popZ 0 1 = EF.fin 0 :=
  ⟨(dtilde_formula rawW popW 0 1).1 (by norm_num [popW]),
   (dtilde_formula rawW popZ 0 1).2 rfl rfl⟩

theorem d_matrix_formula_witness :
    compute_d_matrix (finMat rawW) popM 0 1 = EF.fin (rawW 1 0)
    ∧ compute_d_matrix (finMat rawW) popW 0 1
        = EF.fin ((popW 0 * rawW 0 1 + popW 1 * rawW 1 0) / (popW 0 + popW 1)) :=
  ⟨(d_matrix_formula rawW popM (by decide) 0 1).2.1 (by norm_num [popM])
      (by norm_num [popM]),
   (d_matrix_formula rawW popW (by decide) 0 1).2.2.2 (by norm_num [popW])
      (by norm_num [popW])⟩

theorem zero_population_invariant_witness :
    compute_d_matrix (compute_dtilde_matrix (finMat rawW) popM) popM 0 1
      = compute_dtilde_matrix (finMat rawW) popM 1 0
    ∧ compute_d_matrix (compute_dtilde_matrix (finMat rawW) popM) popM 0 0
        = EF.fin 0 :=
  ⟨(zero_population_invariant (finMat rawW) popM 0 (by norm_num [popM])).1 1
      (by decide),
   (zero_population_invariant (finMat rawW) popM 0 (by norm_num [popM])).2⟩

theorem d_matrix_symmetric_witness :
    compute_d_matrix (compute_dtilde_matrix (finMat rawW) popW) popW 0 1
      = compute_d_matrix (compute_dtilde_matrix (finMat rawW) popW) popW 1 0 :=
  d_matrix_symmetric (finMat rawW) popW (by decide) 0 1

/-- The matrix the pairwise walk strategy assembles on a complete two-node
graph with cost 71 everywhere. -/
def walkW8 : Fin 2 → Fin 2 → EF :=
  writePair (fun _ _ => EF.fin 0) 0 1 (EF.fin (71 / 1.42))

theorem walk_matrices_symmetric_witness :
    compute_full_walk_matrix splTot nodesId2 1.42 0 1
      = compute_full_walk_matrix splTot nodesId2 1.42 1 0
    ∧ walkW8 0 1 = walkW8 1 0 :=
  ⟨(walk_matrices_symmetric splTot nodesId2 walkW8 0 1).1,
   (walk_matrices_symmetric splTot nodesId2 walkW8 0 1).2 rfl⟩

theorem dimension_mismatch_rejected_witness :
    process_files 2 [1] ["a", "b"] (fun _ _ => EF.fin 0)
      = Except.error "Mismatch: travel matrix size does not match number of population entries."
    ∧ load_labeled_matrix 2 (fun _ _ => EF.fin 0) []
      = Except.error "Matrix size and number of IDs do not match." :=
  dimension_mismatch_rejected 2 [1] ["a", "b"] [] (fun _ _ => EF.fin 0)
    (fun _ _ => EF.fin 0) (by decide) (by decide)

theorem dtilde_between_witness :
    ∃ q : ℚ, compute_dtilde_matrix (finMat rawW) popW 0 1 = EF.fin q
      ∧ min (rawW 0 1) (rawW 1 0) ≤ q ∧ q ≤ max (rawW 0 1) (rawW 1 0)
      ∧ (popW 0 = popW 1 → q = (rawW 0 1 + rawW 1 0) / 2) :=
  dtilde_between rawW popW (by decide) 0 1 (by norm_num [popW])

end PharmacyRefusals
